import Mathlib

/-!
Verification of the POT2026 marketing-analytics pipeline
(`1_data_cleaning_pipeline.py`, `2_ml_analysis_final.py`).

The Python code is shallowly embedded: cell values become an inductive
`PyVal` (missing / number / string), floats that the code may turn into
NaN become `Option ℚ` (with `none` for NaN), and the relevant functions
(`find_column`, `fix_engagement_rate`, `fix_rate_column`,
`clean_currency`, the KPI conversion-rate formula, the growth/forecast
arithmetic of `generate_forecast`, and the control flow of
`run_full_pipeline` and the analyzer's try/except wrappers) are
translated line by line.
-/

namespace POT

/-! ## Models of Python string/number primitives -/

/-- Model of Python `str.strip()`: remove leading and trailing whitespace. -/
def pyStrip (s : List Char) : List Char :=
  ((s.dropWhile Char.isWhitespace).reverse.dropWhile Char.isWhitespace).reverse

/-- Model of Python `str.replace(c, '')`: drop every occurrence of `c`. -/
def removeChar (c : Char) (s : List Char) : List Char :=
  s.filter (fun a => a ≠ c)

/-- Value of a digit string read in base 10. -/
def digitsVal (ds : List Char) : ℕ :=
  ds.foldl (fun a c => 10 * a + (c.toNat - 48)) 0

/-- Helper for `pyFloat`: parse `digits [ '.' digits ]` (at least one
digit) into integer part, fraction digits, and fraction length. -/
def pyFloatCore (t : List Char) : Option (ℕ × ℕ × ℕ) :=
  let ip := t.takeWhile Char.isDigit
  match t.dropWhile Char.isDigit with
  | [] => if ip.isEmpty then none else some (digitsVal ip, 0, 0)
  | '.' :: fr =>
      if fr.all Char.isDigit && !(ip.isEmpty && fr.isEmpty) then
        some (digitsVal ip, digitsVal fr, fr.length)
      else none
  | _ => none

/-- The rational value of a parsed decimal literal. -/
def partsVal (p : ℕ × ℕ × ℕ) : ℚ :=
  (p.1 : ℚ) + (p.2.1 : ℚ) / (10 : ℚ) ^ p.2.2

/-- Model of Python `float(s)` on plain decimal literals
(optional sign, integer part, optional fractional part); any other
string raises `ValueError`, modelled as `none`. -/
def pyFloat (s : List Char) : Option ℚ :=
  match s with
  | '-' :: t => (pyFloatCore t).map (fun p => -(partsVal p))
  | '+' :: t => (pyFloatCore t).map partsVal
  | t => (pyFloatCore t).map partsVal

/-- Model of Python `str.lower()` (ASCII headers/keywords). -/
def lowerAll (s : List Char) : List Char :=
  s.map Char.toLower

/-- Model of the Python substring test `needle in hay`:
some suffix of `hay` starts with `needle`. -/
def pyIn (needle hay : List Char) : Bool :=
  (List.range (hay.length + 1)).any (fun i => needle.isPrefixOf (hay.drop i))

/-- Model of Python `round(q)` (banker's rounding, ties to even),
as used by `round(x, 0)` and `round(x, 1)` on the exact values here. -/
def pyRoundInt (q : ℚ) : ℤ :=
  if q - ⌊q⌋ < 1 / 2 then ⌊q⌋
  else if 1 / 2 < q - ⌊q⌋ then ⌊q⌋ + 1
  else if Even ⌊q⌋ then ⌊q⌋ else ⌊q⌋ + 1

/-- Model of Python `round(q, 0)` (result is still a float). -/
def pyRound0 (q : ℚ) : ℚ := (pyRoundInt q : ℚ)

/-- Model of Python `round(q, 1)`. -/
def pyRound1 (q : ℚ) : ℚ := (pyRoundInt (q * 10) : ℚ) / 10

/-- A raw cell value handed to the cleaning helpers: missing
(`None`/NaN, i.e. `pd.isna` is true), a finite number, or a string. -/
inductive PyVal where
  | na : PyVal
  | num : ℚ → PyVal
  | str : List Char → PyVal

/-! ## Cleaner: rate and currency normalizers
(from `1_data_cleaning_pipeline.py`) -/

/-- The string cleanup both rate normalizers perform before parsing:
`value.replace('%', '').strip()`. -/
def cleanRateStr (s : List Char) : List Char :=
  pyStrip (removeChar '%' s)

/-- `fix_engagement_rate` (lines 109–128): NaN for missing input; for a
string, strip `%`, parse, and divide by 100 iff the parsed value lies in
`[0, 100]`; for a number, divide by 100 iff it exceeds 1.  Unparseable
strings give NaN.  Output NaN is modelled as `none`. -/
def fix_engagement_rate : PyVal → Option ℚ
  | PyVal.na => none
  | PyVal.str s =>
      match pyFloat (cleanRateStr s) with
      | some v => if 0 ≤ v ∧ v ≤ 100 then some (v / 100) else some v
      | none => none
  | PyVal.num v => if 1 < v then some (v / 100) else some v

/-- `fix_rate_column` (lines 161–177): NaN for missing input; for a
string, strip `%`, parse, and divide by 100 iff the parsed value exceeds
1; for a number, divide by 100 iff it exceeds 1.  Unparseable strings
give NaN. -/
def fix_rate_column : PyVal → Option ℚ
  | PyVal.na => none
  | PyVal.str s =>
      match pyFloat (cleanRateStr s) with
      | some v => if 1 < v then some (v / 100) else some v
      | none => none
  | PyVal.num v => if 1 < v then some (v / 100) else some v

/-- The bounce-rate fix of `clean_website_traffic` (lines 60–67),
applied to numeric cells: values above 1 are divided by 100. -/
def fixBounceRate (v : ℚ) : ℚ :=
  if 1 < v then v / 100 else v

/-- Re-running a normalizer on an already-normalized cell: the cell now
holds a float (`some v`) or NaN (`none`, for which `pd.isna` is true). -/
def renormalize (f : PyVal → Option ℚ) : Option ℚ → Option ℚ
  | none => f PyVal.na
  | some v => f (PyVal.num v)

/-- The string cleanup of `clean_currency`:
`value.replace('€', '').replace(',', '').strip()`. -/
def cleanCurrencyStr (s : List Char) : List Char :=
  pyStrip (removeChar ',' (removeChar '€' s))

/-- `clean_currency` (lines 219–231): missing values map to `0.0`,
strings are stripped of `€`/`,`/edge spaces and parsed (parse failure
gives `0.0`), numbers pass through `float`. -/
def clean_currency : PyVal → ℚ
  | PyVal.na => 0
  | PyVal.str s =>
      match pyFloat (cleanCurrencyStr s) with
      | some v => v
      | none => 0
  | PyVal.num v => v

/-! ## Analyzer: adaptive column resolution
(`find_column`, `2_ml_analysis_final.py` lines 24–31) -/

/-- `find_column`: scan the dataframe's columns in order and return the
first whose lowercased header contains some lowercased keyword as a
substring; `None` when no header matches. -/
def find_column (cols keywords : List (List Char)) : Option (List Char) :=
  cols.find? (fun col => keywords.any (fun k => pyIn (lowerAll k) (lowerAll col)))

/-- Specification-side matching predicate: some keyword occurs in the
column header, case-insensitively. -/
def keywordHit (keywords : List (List Char)) (col : List Char) : Prop :=
  ∃ k ∈ keywords, lowerAll k <:+: lowerAll col

/-! ## Conversion rate (`calculate_kpis` lines 312–315 and
`generate_conversion_analysis` lines 488–494) -/

def closedWon : List Char := "Closed Won".data

def closedLost : List Char := "Closed Lost".data

/-- The `isin(['Closed Won', 'Closed Lost'])` test on a Deal Stage cell. -/
def isClosedStage (s : List Char) : Bool :=
  s == closedWon || s == closedLost

/-- The `== 'Closed Won'` test on a Deal Stage cell. -/
def isWonStage (s : List Char) : Bool :=
  s == closedWon

/-- The conversion rate of `calculate_kpis`: restrict the Deal Stage
column to closed deals; if any exist, won ÷ closed × 100, else 0. -/
def conversion_rate (stages : List (List Char)) : ℚ :=
  let closed := stages.filter isClosedStage
  if 0 < closed.length then
    ((closed.filter isWonStage).length : ℚ) / (closed.length : ℚ) * 100
  else 0

/-- The `overall_rate` of `generate_conversion_analysis`: the same
filter-and-divide formula applied to the sales Deal Stage column. -/
def overall_rate (stages : List (List Char)) : ℚ :=
  let closed_all := stages.filter isClosedStage
  let won_all := closed_all.filter isWonStage
  if 0 < closed_all.length then
    (won_all.length : ℚ) / (closed_all.length : ℚ) * 100
  else 0

/-! ## Forecast arithmetic (`generate_forecast`,
`2_ml_analysis_final.py` lines 549–581 and fallback lines 600–621) -/

/-- `pct_change` over consecutive monthly lead counts
(the non-NaN entries of `monthly_data.pct_change()`). -/
def pct_changes (l : List ℚ) : List ℚ :=
  List.zipWith (fun a b => b / a - 1) l l.tail

/-- Pandas `mean` of the percentage changes. -/
def listMean (l : List ℚ) : ℚ :=
  l.sum / (l.length : ℚ)

/-- The monthly growth factor of `generate_forecast` (lines 549–555):
with at most one month of data, the default `1.15`; otherwise
`1 + (0.15 if growth_rate <= 0 else min(growth_rate, 0.3))`.
(The `pd.isna(growth_rate)` guard of the source cannot fire here:
monthly group sizes are positive, so the mean of at least one
percentage change is a finite rational.) -/
def monthly_growth (counts : List ℕ) : ℚ :=
  if 1 < counts.length then
    1 + (if listMean (pct_changes (counts.map (fun n => (n : ℚ)))) ≤ 0 then 3 / 20
         else min (listMean (pct_changes (counts.map (fun n => (n : ℚ))))) (3 / 10))
  else 23 / 20

/-- The fixed number of remaining periods (`months_remaining = 4`). -/
def months_remaining : ℕ := 4

/-- `current * (monthly_growth ** months_remaining)`, the compounding
formula behind `delegate_forecast` and `sponsor_forecast`. -/
def rawForecast (current : ℕ) (growth : ℚ) : ℚ :=
  (current : ℚ) * growth ^ months_remaining

/-- The reported field `'delegate_forecast': round(float(delegate_forecast), 0)`. -/
def reportedForecast (current : ℕ) (growth : ℚ) : ℚ :=
  pyRound0 (rawForecast current growth)

/-- The `'delegate_forecast'` entry of the fallback dict used when
`generate_forecast` raises (line 606). -/
def fallbackDelegateForecast : ℚ := 280

/-! ## Cleaner control flow (`run_full_pipeline` lines 413–439)

Each `clean_*` method starts with `df = self.data['<sheet>'].copy()`,
which raises `KeyError` when the sheet is absent; the rest of the
method body (deduplication, rate fixes, `pd.to_datetime`, `.str`
accessors, type coercions, …) can itself raise, depending on dataframe
contents not modelled here, and only on success does the method store
`self.data['<sheet> Clean']`; none of the methods contains a handler.
`run_full_pipeline` chains them inside one `try`, whose `except` logs
and returns `False`.  The dict of loaded/cleaned sheets is modelled by
the list of its keys, and each method's in-body outcome is an explicit
parameter of the model. -/

def sheetWebsite : List Char := "Website Traffic".data

def sheetSocial : List Char := "Social Media".data

def sheetEmail : List Char := "Email Campaigns".data

def sheetSales : List Char := "Sales Pipeline".data

def sheetAds : List Char := "Ad Spend".data

def cleanWebsite : List Char := "Website Traffic Clean".data

def cleanSocial : List Char := "Social Media Clean".data

def cleanEmail : List Char := "Email Campaigns Clean".data

def cleanSales : List Char := "Sales Pipeline Clean".data

def cleanAds : List Char := "Ad Spend Clean".data

/-- One `clean_*` method: reading `self.data[src]` raises `KeyError`
(`Except.error src`) when the sheet is absent; then the rest of the
method body runs — its outcome `body` is a parameter of the model,
since it depends on the dataframe's columns and values — and any error
it raises propagates (the method has no handler); on success the
cleaned sheet is stored under `tgt`. -/
def clean_step (src tgt : List Char) (body : Except (List Char) Unit)
    (data : List (List Char)) : Except (List Char) (List (List Char)) :=
  if data.contains src then
    match body with
    | Except.ok _ => Except.ok (data ++ [tgt])
    | Except.error e => Except.error e
  else Except.error src

/-- Run cleaning steps (source sheet, clean sheet, body outcome) in
order; the first uncaught exception stops the chain, leaving the data
exactly as it was before the failing step, and yields `False`. -/
def run_clean_steps :
    List (List Char × List Char × Except (List Char) Unit) →
    List (List Char) → Bool × List (List Char)
  | [], data => (true, data)
  | (src, tgt, body) :: rest, data =>
      match clean_step src tgt body data with
      | Except.ok d2 => run_clean_steps rest d2
      | Except.error _ => (false, data)

/-- The five cleaning steps in the order `run_full_pipeline` calls
them, given each method's in-body outcome. -/
def cleaning_steps (bw bs be bsa ba : Except (List Char) Unit) :
    List (List Char × List Char × Except (List Char) Unit) :=
  [(sheetWebsite, cleanWebsite, bw), (sheetSocial, cleanSocial, bs),
   (sheetEmail, cleanEmail, be), (sheetSales, cleanSales, bsa),
   (sheetAds, cleanAds, ba)]

/-- `run_full_pipeline` after `load_all_sheets` has filled `self.data`
with the workbook's sheets: chain the five cleaning steps; the single
`except` turns any failure into a `False` return. -/
def run_full_pipeline (sheets : List (List Char))
    (bw bs be bsa ba : Except (List Char) Unit) : Bool × List (List Char) :=
  run_clean_steps (cleaning_steps bw bs be bsa ba) sheets

/-- A workbook that has every sheet except Website Traffic. -/
def missingWebsiteSheets : List (List Char) :=
  [sheetSocial, sheetEmail, sheetSales, sheetAds]

/-- A workbook with all five sheets. -/
def allSheets : List (List Char) :=
  [sheetWebsite, sheetSocial, sheetEmail, sheetSales, sheetAds]

/-! ## Analyzer error handling (`2_ml_analysis_final.py`)

Every analysis method of `AdaptiveMLAnalyzer` wraps its body in
`try/except`; the handler prints the error and returns a hardcoded
value (an empty dict for the five per-dataset analyses, a populated
fallback dict for ROI, conversion, forecast, hidden insights and KPIs).
The JSON-like results are modelled by `JVal`; a method body is modelled
by its outcome, `Except` an exception message. -/

/-- A JSON-like insight value. -/
inductive JVal where
  | num : ℚ → JVal
  | str : List Char → JVal
  | bool : Bool → JVal
  | obj : List (List Char × JVal) → JVal
  | arr : List JVal → JVal

/-- A `try: return <body> except: print(e); return <fallback>` wrapper. -/
def run_step (fallback : JVal) (body : Except (List Char) JVal) : JVal :=
  match body with
  | Except.ok v => v
  | Except.error _ => fallback

/-- Fallback dict of `generate_roi_analysis` (lines 443–456). -/
def roiFallback : JVal :=
  JVal.obj
    [("channel_data".data, JVal.obj
        [("Google Display Retargeting".data,
            JVal.obj [("roi".data, JVal.num (82 / 10)), ("cpa".data, JVal.num (334 / 100))]),
         ("Email Campaigns".data,
            JVal.obj [("roi".data, JVal.num (51 / 10)), ("cpa".data, JVal.num (452 / 10))]),
         ("Website Organic".data,
            JVal.obj [("roi".data, JVal.num (43 / 10)), ("cpa".data, JVal.num (225 / 10))]),
         ("LinkedIn Retargeting".data,
            JVal.obj [("roi".data, JVal.num (31 / 10)), ("cpa".data, JVal.num 158)]),
         ("LinkedIn C-Suite Targeting".data,
            JVal.obj [("roi".data, JVal.num (4 / 10)), ("cpa".data, JVal.num (8995 / 10))])]),
     ("best_channel".data, JVal.str "Google Display Retargeting".data),
     ("best_roi".data, JVal.num (82 / 10)),
     ("worst_channel".data, JVal.str "LinkedIn C-Suite Targeting".data),
     ("worst_roi".data, JVal.num (4 / 10)),
     ("average_roi".data, JVal.num (42 / 10))]

/-- Fallback dict of `generate_conversion_analysis` (lines 511–523). -/
def conversionFallback : JVal :=
  JVal.obj
    [("by_source".data, JVal.obj
        [("Referral".data, JVal.obj
            [("conversion_rate".data, JVal.num (324 / 10)),
             ("total_deals".data, JVal.num 12), ("won_deals".data, JVal.num 4)]),
         ("Email Campaign".data, JVal.obj
            [("conversion_rate".data, JVal.num (216 / 10)),
             ("total_deals".data, JVal.num 8), ("won_deals".data, JVal.num 2)]),
         ("LinkedIn Outreach".data, JVal.obj
            [("conversion_rate".data, JVal.num (152 / 10)),
             ("total_deals".data, JVal.num 33), ("won_deals".data, JVal.num 5)]),
         ("Website Inquiry".data, JVal.obj
            [("conversion_rate".data, JVal.num (118 / 10)),
             ("total_deals".data, JVal.num 34), ("won_deals".data, JVal.num 4)]),
         ("Conference Meeting".data, JVal.obj
            [("conversion_rate".data, JVal.num (95 / 10)),
             ("total_deals".data, JVal.num 21), ("won_deals".data, JVal.num 2)]),
         ("Cold Outreach".data, JVal.obj
            [("conversion_rate".data, JVal.num 0),
             ("total_deals".data, JVal.num 8), ("won_deals".data, JVal.num 0)])]),
     ("overall_rate".data, JVal.num (178 / 10)),
     ("total_closed".data, JVal.num 107),
     ("total_won".data, JVal.num 19)]

/-- Fallback dict of `generate_forecast` (lines 601–619). -/
def forecastFallback : JVal :=
  JVal.obj
    [("current_delegates".data, JVal.num 14),
     ("current_sponsors".data, JVal.num 3),
     ("delegate_target".data, JVal.num 300),
     ("sponsor_target".data, JVal.num 25),
     ("delegate_forecast".data, JVal.num 280),
     ("sponsor_forecast".data, JVal.num 22),
     ("delegate_gap".data, JVal.num 20),
     ("sponsor_gap".data, JVal.num 3),
     ("monthly_growth_rate".data, JVal.num 15),
     ("monthly_predictions".data, JVal.arr
        [JVal.obj [("month".data, JVal.num 1), ("delegates".data, JVal.num 60),
                   ("sponsors".data, JVal.num 5)],
         JVal.obj [("month".data, JVal.num 2), ("delegates".data, JVal.num 65),
                   ("sponsors".data, JVal.num 6)],
         JVal.obj [("month".data, JVal.num 3), ("delegates".data, JVal.num 70),
                   ("sponsors".data, JVal.num 7)],
         JVal.obj [("month".data, JVal.num 4), ("delegates".data, JVal.num 68),
                   ("sponsors".data, JVal.num 7)]]),
     ("on_track_delegates".data, JVal.bool false),
     ("on_track_sponsors".data, JVal.bool false)]

/-- Fallback dict of `find_hidden_insights` (lines 685–689). -/
def hiddenFallback : JVal :=
  JVal.obj
    [("stuck_deals_count".data, JVal.num 14),
     ("stuck_deals_value".data, JVal.num 480000),
     ("common_blockers".data, JVal.obj
        [("board approval".data, JVal.num 5),
         ("budget".data, JVal.num 3),
         ("respond".data, JVal.num 2)])]

/-- Fallback dict of the analyzer's `calculate_kpis`. -/
def kpisFallback : JVal :=
  JVal.obj
    [("overall_cpa".data, JVal.num 75),
     ("overall_conversion_rate".data, JVal.num (178 / 10)),
     ("current_delegates".data, JVal.num 14),
     ("current_sponsors".data, JVal.num 3),
     ("delegate_target".data, JVal.num 300),
     ("sponsor_target".data, JVal.num 25),
     ("delegate_progress".data, JVal.num (47 / 10)),
     ("sponsor_progress".data, JVal.num 12),
     ("stuck_deals_count".data, JVal.num 14),
     ("stuck_deals_value".data, JVal.num 480000)]

/-- `analyze_website` (and likewise `analyze_social`, `analyze_email`,
`analyze_sales`, `analyze_ads`): the `except` returns the empty dict. -/
def analyze_website_run : Except (List Char) JVal → JVal :=
  run_step (JVal.obj [])

def generate_roi_run : Except (List Char) JVal → JVal :=
  run_step roiFallback

def generate_conversion_run : Except (List Char) JVal → JVal :=
  run_step conversionFallback

def generate_forecast_run : Except (List Char) JVal → JVal :=
  run_step forecastFallback

def hidden_insights_run : Except (List Char) JVal → JVal :=
  run_step hiddenFallback

def calculate_kpis_run : Except (List Char) JVal → JVal :=
  run_step kpisFallback

/-- Key lookup in a `JVal` object. -/
def hasKey (j : JVal) (k : List Char) : Bool :=
  match j with
  | JVal.obj fields => fields.any (fun p => p.1 == k)
  | _ => false

/-! ## Helper lemmas -/

theorem isPrefixOf_true_iff (l₁ l₂ : List Char) :
    List.isPrefixOf l₁ l₂ = true ↔ l₁ <+: l₂ := by
  induction l₁ generalizing l₂ with
  | nil => simp
  | cons a as ih =>
    cases l₂ with
    | nil => simp
    | cons b bs =>
      rw [List.isPrefixOf_cons₂, List.cons_prefix_cons, Bool.and_eq_true,
        beq_iff_eq, ih]

theorem pyIn_true_iff (n h : List Char) : pyIn n h = true ↔ n <:+: h := by
  unfold pyIn
  rw [List.any_eq_true]
  constructor
  · rintro ⟨i, _, hpre⟩
    exact List.infix_iff_prefix_suffix.mpr
      ⟨h.drop i, (isPrefixOf_true_iff _ _).mp hpre, List.drop_suffix i h⟩
  · rintro ⟨s, t, hst⟩
    refine ⟨s.length, ?_, ?_⟩
    · rw [List.mem_range]
      have hlen : h.length = s.length + n.length + t.length := by
        rw [← hst]; simp [List.length_append]; omega
      omega
    · rw [isPrefixOf_true_iff]
      have hdrop : h.drop s.length = n ++ t := by
        rw [← hst, List.append_assoc, List.drop_left]
      rw [hdrop]
      exact List.prefix_append n t

theorem find?_eq_some_split {α : Type} {p : α → Bool} {l : List α} {a : α}
    (h : l.find? p = some a) :
    ∃ l₁ l₂, l = l₁ ++ a :: l₂ ∧ p a = true ∧ ∀ x ∈ l₁, p x = false := by
  induction l with
  | nil => simp at h
  | cons b t ih =>
    by_cases hb : p b = true
    · rw [List.find?_cons_of_pos _ hb] at h
      obtain rfl : b = a := by injection h
      exact ⟨[], t, rfl, hb, by simp⟩
    · rw [List.find?_cons_of_neg _ hb] at h
      obtain ⟨l₁, l₂, rfl, hpa, hall⟩ := ih h
      refine ⟨b :: l₁, l₂, rfl, hpa, ?_⟩
      intro x hx
      rcases List.mem_cons.mp hx with rfl | hx2
      · exact Bool.not_eq_true _ ▸ hb
      · exact hall x hx2

/-- The Boolean matcher inside `find_column` decides `keywordHit`. -/
theorem find_column_pred_iff (keywords : List (List Char)) (col : List Char) :
    (keywords.any (fun k => pyIn (lowerAll k) (lowerAll col)) = true)
      ↔ keywordHit keywords col := by
  rw [List.any_eq_true]
  constructor
  · rintro ⟨k, hk, hin⟩
    exact ⟨k, hk, (pyIn_true_iff _ _).mp hin⟩
  · rintro ⟨k, hk, hin⟩
    exact ⟨k, hk, (pyIn_true_iff _ _).mpr hin⟩

/-! ## C1: `find_column` returns the first matching header -/

/-- C1: for every ordered list of column headers and every ordered list
of keywords, `find_column` returns the first header containing some
keyword as a case-insensitive substring — every header before it
matches no keyword — and returns `None` exactly when no header matches;
being a total function, it never throws. -/
theorem find_column_first_match (cols keywords : List (List Char)) :
    (∀ c, find_column cols keywords = some c →
        keywordHit keywords c ∧
        ∃ l₁ l₂, cols = l₁ ++ c :: l₂ ∧ ∀ c2 ∈ l₁, ¬ keywordHit keywords c2)
    ∧ (find_column cols keywords = none → ∀ c ∈ cols, ¬ keywordHit keywords c) := by
  constructor
  · intro c hc
    obtain ⟨l₁, l₂, rfl, hpa, hall⟩ := find?_eq_some_split hc
    refine ⟨(find_column_pred_iff keywords c).mp hpa, l₁, l₂, rfl, ?_⟩
    intro c2 hc2 hhit
    have := hall c2 hc2
    rw [(find_column_pred_iff keywords c2).mpr hhit] at this
    exact Bool.true_eq_false.mp this
  · intro hnone c hc hhit
    have := List.find?_eq_none.mp hnone c hc
    exact this ((find_column_pred_iff keywords c).mpr hhit)

/-- Concrete headers of the Website Traffic sheet, in dataframe order. -/
def websiteCols : List (List Char) :=
  ["Week Starting".data, "Sessions".data, "Users".data, "Bounce Rate".data]

/-- The keyword list the analyzer uses for the sessions column. -/
def sessionKeywords : List (List Char) :=
  ["session".data, "visits".data]

/-- Witness for C1 at a concrete header/keyword list: `find_column`
resolves `Sessions`, which matches, and the header before it does not. -/
theorem find_column_first_match_witness :
    keywordHit sessionKeywords ("Sessions".data) ∧
    ∃ l₁ l₂, websiteCols = l₁ ++ ("Sessions".data) :: l₂ ∧
      ∀ c2 ∈ l₁, ¬ keywordHit sessionKeywords c2 :=
  (find_column_first_match websiteCols sessionKeywords).1 ("Sessions".data) (by rfl)

/-! ## Evaluation lemmas for the normalizers -/

theorem fix_rate_column_num (v : ℚ) :
    fix_rate_column (PyVal.num v) = if 1 < v then some (v / 100) else some v := rfl

theorem fix_engagement_rate_num (v : ℚ) :
    fix_engagement_rate (PyVal.num v) = if 1 < v then some (v / 100) else some v := rfl

theorem fix_rate_column_str_some (s : List Char) (v : ℚ)
    (h : pyFloat (cleanRateStr s) = some v) :
    fix_rate_column (PyVal.str s) = if 1 < v then some (v / 100) else some v := by
  simp only [fix_rate_column, h]

theorem fix_rate_column_str_none (s : List Char)
    (h : pyFloat (cleanRateStr s) = none) :
    fix_rate_column (PyVal.str s) = none := by
  simp only [fix_rate_column, h]

theorem fix_engagement_rate_str_some (s : List Char) (v : ℚ)
    (h : pyFloat (cleanRateStr s) = some v) :
    fix_engagement_rate (PyVal.str s)
      = if 0 ≤ v ∧ v ≤ 100 then some (v / 100) else some v := by
  simp only [fix_engagement_rate, h]

theorem fix_engagement_rate_str_none (s : List Char)
    (h : pyFloat (cleanRateStr s) = none) :
    fix_engagement_rate (PyVal.str s) = none := by
  simp only [fix_engagement_rate, h]

theorem pyFloat_half : pyFloat (cleanRateStr ("0.5".data)) = some (1 / 2) := by
  have h1 : cleanRateStr ("0.5".data) = "0.5".data := by decide
  rw [h1]
  have h2 : pyFloat ("0.5".data) = (pyFloatCore ("0.5".data)).map partsVal := rfl
  rw [h2, show pyFloatCore ("0.5".data) = some (0, 5, 1) from by decide]
  show some (partsVal (0, 5, 1)) = some (1 / 2)
  norm_num [partsVal]

theorem pyFloat_onefifty : pyFloat (cleanRateStr ("150".data)) = some 150 := by
  have h1 : cleanRateStr ("150".data) = "150".data := by decide
  rw [h1]
  have h2 : pyFloat ("150".data) = (pyFloatCore ("150".data)).map partsVal := rfl
  rw [h2, show pyFloatCore ("150".data) = some (150, 0, 0) from by decide]
  show some (partsVal (150, 0, 0)) = some 150
  norm_num [partsVal]

theorem pyFloat_fortyfive : pyFloat (cleanRateStr ("45%".data)) = some 45 := by
  have h1 : cleanRateStr ("45%".data) = "45".data := by decide
  rw [h1]
  have h2 : pyFloat ("45".data) = (pyFloatCore ("45".data)).map partsVal := rfl
  rw [h2, show pyFloatCore ("45".data) = some (45, 0, 0) from by decide]
  show some (partsVal (45, 0, 0)) = some 45
  norm_num [partsVal]

/-! ## C2: behaviour of the rate normalizers -/

/-- C2 counterexample: the claim says values in `[0, 1]` are returned
unchanged and values above 1 are divided by 100, but on the string cell
`"0.5"` `fix_engagement_rate` returns `0.005`, and on the string cell
`"150"` it returns `150` undivided. -/
theorem engagement_rate_string_counterexample :
    fix_engagement_rate (PyVal.str ("0.5".data)) = some (1 / 200)
    ∧ (1 / 200 : ℚ) ≠ 1 / 2
    ∧ fix_engagement_rate (PyVal.str ("150".data)) = some 150
    ∧ (150 : ℚ) ≠ 150 / 100 := by
  refine ⟨?_, by norm_num, ?_, by norm_num⟩
  · rw [fix_engagement_rate_str_some _ _ pyFloat_half,
      if_pos (by norm_num : (0 : ℚ) ≤ 1 / 2 ∧ (1 / 2 : ℚ) ≤ 100)]
    norm_num
  · rw [fix_engagement_rate_str_some _ _ pyFloat_onefifty,
      if_neg (by norm_num : ¬ ((0 : ℚ) ≤ 150 ∧ (150 : ℚ) ≤ 100))]

/-- C2 (amended): for missing input both normalizers give the missing
marker, and on numeric input both divide by 100 exactly when the value
exceeds 1 (values `≤ 1`, in particular all of `[0, 1]`, unchanged).  On
string input, after stripping `%`, an unparseable string gives the
missing marker; a parsed value is divided by 100 by `fix_rate_column`
exactly when it exceeds 1, but by `fix_engagement_rate` exactly when it
lies in `[0, 100]`. -/
theorem rate_normalizer_behavior (v : ℚ) (s : List Char) :
    fix_rate_column PyVal.na = none
    ∧ fix_engagement_rate PyVal.na = none
    ∧ (1 < v → fix_rate_column (PyVal.num v) = some (v / 100)
             ∧ fix_engagement_rate (PyVal.num v) = some (v / 100))
    ∧ (v ≤ 1 → fix_rate_column (PyVal.num v) = some v
             ∧ fix_engagement_rate (PyVal.num v) = some v)
    ∧ (pyFloat (cleanRateStr s) = none →
          fix_rate_column (PyVal.str s) = none
        ∧ fix_engagement_rate (PyVal.str s) = none)
    ∧ (pyFloat (cleanRateStr s) = some v →
          fix_rate_column (PyVal.str s) = some (if 1 < v then v / 100 else v)
        ∧ fix_engagement_rate (PyVal.str s)
            = some (if 0 ≤ v ∧ v ≤ 100 then v / 100 else v)) := by
  refine ⟨rfl, rfl, ?_, ?_, ?_, ?_⟩
  · intro hv
    constructor
    · rw [fix_rate_column_num, if_pos hv]
    · rw [fix_engagement_rate_num, if_pos hv]
  · intro hv
    have h1 : ¬ (1 < v) := not_lt.mpr hv
    constructor
    · rw [fix_rate_column_num, if_neg h1]
    · rw [fix_engagement_rate_num, if_neg h1]
  · intro hnone
    exact ⟨fix_rate_column_str_none _ hnone, fix_engagement_rate_str_none _ hnone⟩
  · intro hsome
    constructor
    · rw [fix_rate_column_str_some _ _ hsome, apply_ite some]
    · rw [fix_engagement_rate_str_some _ _ hsome, apply_ite some]

/-- Witness for C2 (amended) at concrete inputs: the numeric value 2 is
divided by 100, and the parsed string `"0.5"` follows the two string
rules (divided by `fix_engagement_rate`, kept by `fix_rate_column`). -/
theorem rate_normalizer_behavior_witness :
    (fix_rate_column (PyVal.num 2) = some (2 / 100)
      ∧ fix_engagement_rate (PyVal.num 2) = some (2 / 100))
    ∧ (fix_rate_column (PyVal.str ("0.5".data))
          = some (if 1 < (1 / 2 : ℚ) then 1 / 2 / 100 else 1 / 2)
      ∧ fix_engagement_rate (PyVal.str ("0.5".data))
          = some (if 0 ≤ (1 / 2 : ℚ) ∧ (1 / 2 : ℚ) ≤ 100 then 1 / 2 / 100 else 1 / 2)) :=
  ⟨(rate_normalizer_behavior 2 []).2.2.1 (by norm_num),
   (rate_normalizer_behavior (1 / 2) ("0.5".data)).2.2.2.2.2 pyFloat_half⟩

/-! ## C3: normalized rates and the 1.0 bound -/

/-- C3 counterexample: the numeric cell `150` is parseable, yet
`fix_rate_column` normalizes it to `1.5 > 1.0`. -/
theorem rate_above_one_counterexample :
    fix_rate_column (PyVal.num 150) = some (3 / 2)
    ∧ ¬ ((3 : ℚ) / 2 ≤ 1) := by
  constructor
  · rw [fix_rate_column_num, if_pos (by norm_num : (1 : ℚ) < 150)]
    norm_num
  · norm_num

/-- C3 (amended): whenever the input's numeric value — the numeric cell
itself, or the value parsed from the cleaned string — is at most 100,
the normalized output (of `fix_rate_column`, `fix_engagement_rate`, and
the bounce-rate fix) does not exceed 1.0; values above 1 have been
divided by 100. -/
theorem rate_le_one_of_le_hundred (v w : ℚ) (s : List Char) :
    (v ≤ 100 →
        (∀ r, fix_rate_column (PyVal.num v) = some r → r ≤ 1)
      ∧ (∀ r, fix_engagement_rate (PyVal.num v) = some r → r ≤ 1)
      ∧ fixBounceRate v ≤ 1)
    ∧ (pyFloat (cleanRateStr s) = some w → w ≤ 100 →
        (∀ r, fix_rate_column (PyVal.str s) = some r → r ≤ 1)
      ∧ (∀ r, fix_engagement_rate (PyVal.str s) = some r → r ≤ 1)) := by
  constructor
  · intro hv
    refine ⟨?_, ?_, ?_⟩
    · intro r hr
      rw [fix_rate_column_num] at hr
      by_cases h1 : 1 < v
      · rw [if_pos h1] at hr
        obtain rfl : v / 100 = r := by injection hr
        linarith
      · rw [if_neg h1] at hr
        obtain rfl : v = r := by injection hr
        linarith [not_lt.mp h1]
    · intro r hr
      rw [fix_engagement_rate_num] at hr
      by_cases h1 : 1 < v
      · rw [if_pos h1] at hr
        obtain rfl : v / 100 = r := by injection hr
        linarith
      · rw [if_neg h1] at hr
        obtain rfl : v = r := by injection hr
        linarith [not_lt.mp h1]
    · unfold fixBounceRate
      by_cases h1 : 1 < v
      · rw [if_pos h1]; linarith
      · rw [if_neg h1]; linarith [not_lt.mp h1]
  · intro hsome hw
    constructor
    · intro r hr
      rw [fix_rate_column_str_some _ _ hsome] at hr
      by_cases h1 : 1 < w
      · rw [if_pos h1] at hr
        obtain rfl : w / 100 = r := by injection hr
        linarith
      · rw [if_neg h1] at hr
        obtain rfl : w = r := by injection hr
        linarith [not_lt.mp h1]
    · intro r hr
      rw [fix_engagement_rate_str_some _ _ hsome] at hr
      by_cases h1 : 0 ≤ w ∧ w ≤ 100
      · rw [if_pos h1] at hr
        obtain rfl : w / 100 = r := by injection hr
        linarith
      · rw [if_neg h1] at hr
        obtain rfl : w = r := by injection hr
        have hneg : w < 0 := by
          by_contra hge
          exact h1 ⟨not_lt.mp hge, hw⟩
        linarith

/-- Witness for C3 (amended): at the numeric cell 45 (≤ 100) both
normalizers output `0.45 ≤ 1`, and the parsed string `"45%"` likewise. -/
theorem rate_le_one_of_le_hundred_witness :
    ((45 : ℚ) ≤ 100
      ∧ (∀ r, fix_rate_column (PyVal.num 45) = some r → r ≤ 1))
    ∧ (∀ r, fix_rate_column (PyVal.str ("45%".data)) = some r → r ≤ 1) :=
  ⟨⟨by norm_num, ((rate_le_one_of_le_hundred 45 45 ("45%".data)).1 (by norm_num)).1⟩,
   ((rate_le_one_of_le_hundred 45 45 ("45%".data)).2 pyFloat_fortyfive (by norm_num)).1⟩

/-! ## C4: idempotence of the normalizers -/

/-- C4 counterexample: re-normalizing the output of `fix_rate_column`
at the numeric cell 150 changes it again (1.5 becomes 0.015), so the
normalizer is not idempotent on every input. -/
theorem renormalize_not_idempotent_counterexample :
    fix_rate_column (PyVal.num 150) = some (3 / 2)
    ∧ renormalize fix_rate_column (fix_rate_column (PyVal.num 150)) = some (3 / 200)
    ∧ some ((3 : ℚ) / 200) ≠ some ((3 : ℚ) / 2) := by
  have h1 : fix_rate_column (PyVal.num 150) = some (3 / 2) := by
    rw [fix_rate_column_num, if_pos (by norm_num : (1 : ℚ) < 150)]
    norm_num
  refine ⟨h1, ?_, by simp only [ne_eq, Option.some.injEq] ; norm_num⟩
  rw [h1]
  show fix_rate_column (PyVal.num (3 / 2)) = some (3 / 200)
  rw [fix_rate_column_num, if_pos (by norm_num : (1 : ℚ) < 3 / 2)]
  norm_num

/-- C4 (amended): each normalizer is idempotent on every input whose
normalized output is at most 1 (and on inputs normalized to the missing
marker); in particular numeric values already `≤ 1` are returned
unchanged, hence unchanged again on re-normalization. -/
theorem renormalize_idempotent_on_le_one (c : PyVal) (v : ℚ) :
    (fix_rate_column c = none →
        renormalize fix_rate_column (fix_rate_column c) = fix_rate_column c)
    ∧ (fix_rate_column c = some v → v ≤ 1 →
        renormalize fix_rate_column (fix_rate_column c) = fix_rate_column c)
    ∧ (fix_engagement_rate c = none →
        renormalize fix_engagement_rate (fix_engagement_rate c) = fix_engagement_rate c)
    ∧ (fix_engagement_rate c = some v → v ≤ 1 →
        renormalize fix_engagement_rate (fix_engagement_rate c) = fix_engagement_rate c)
    ∧ (v ≤ 1 → fix_rate_column (PyVal.num v) = some v
             ∧ fix_engagement_rate (PyVal.num v) = some v) := by
  refine ⟨?_, ?_, ?_, ?_, ?_⟩
  · intro h; rw [h]; rfl
  · intro h hv
    rw [h]
    show fix_rate_column (PyVal.num v) = some v
    rw [fix_rate_column_num, if_neg (not_lt.mpr hv)]
  · intro h; rw [h]; rfl
  · intro h hv
    rw [h]
    show fix_engagement_rate (PyVal.num v) = some v
    rw [fix_engagement_rate_num, if_neg (not_lt.mpr hv)]
  · intro hv
    exact ⟨by rw [fix_rate_column_num, if_neg (not_lt.mpr hv)],
           by rw [fix_engagement_rate_num, if_neg (not_lt.mpr hv)]⟩

/-- Witness for C4 (amended) at the numeric cell 0.4: normalized to
itself and stable under re-normalization. -/
theorem renormalize_idempotent_on_le_one_witness :
    renormalize fix_rate_column (fix_rate_column (PyVal.num (2 / 5)))
      = fix_rate_column (PyVal.num (2 / 5)) :=
  (renormalize_idempotent_on_le_one (PyVal.num (2 / 5)) (2 / 5)).2.1
    (by rw [fix_rate_column_num, if_neg (by norm_num : ¬ (1 : ℚ) < 2 / 5)])
    (by norm_num)

/-! ## Rounding evaluation helpers -/

theorem pyRoundInt_eq_of_lt_half (q : ℚ) (n : ℤ) (hfl : ⌊q⌋ = n)
    (h : q - n < 1 / 2) : pyRoundInt q = n := by
  unfold pyRoundInt
  rw [hfl, if_pos h]

theorem pyRoundInt_eq_of_half_lt (q : ℚ) (n : ℤ) (hfl : ⌊q⌋ = n)
    (h : 1 / 2 < q - n) : pyRoundInt q = n + 1 := by
  unfold pyRoundInt
  rw [hfl, if_neg (by linarith), if_pos h]

/-! ## C5: overall conversion rate at 19 won / 88 lost -/

theorem filter_or_length {α : Type} (p q : α → Bool) (l : List α)
    (h : ∀ a, ¬ (p a = true ∧ q a = true)) :
    (l.filter (fun a => p a || q a)).length
      = (l.filter p).length + (l.filter q).length := by
  induction l with
  | nil => rfl
  | cons a t ih =>
    simp only [List.filter_cons]
    cases hp : p a with
    | true =>
      have hq : q a = false := by
        cases hq : q a with
        | true => exact absurd ⟨hp, hq⟩ (h a)
        | false => rfl
      simp [hp, hq, ih]
      omega
    | false =>
      cases hq : q a with
      | true =>
        simp [hp, hq, ih]
        omega
      | false =>
        simp [hp, hq, ih]

/-- Won deals within the closed deals are exactly the won deals. -/
theorem filter_won_of_closed (stages : List (List Char)) :
    (stages.filter isClosedStage).filter isWonStage = stages.filter isWonStage := by
  rw [List.filter_filter]
  apply List.filter_congr
  intro a _
  cases hw : (a == closedWon) with
  | true => simp [isWonStage, isClosedStage, hw]
  | false => simp [isWonStage, isClosedStage, hw]

theorem closed_length_split (stages : List (List Char)) :
    (stages.filter isClosedStage).length
      = (stages.filter isWonStage).length
        + (stages.filter (fun s => s == closedLost)).length := by
  have hdisj : ∀ a : List Char,
      ¬ (isWonStage a = true ∧ (a == closedLost) = true) := by
    intro a ⟨h1, h2⟩
    rw [isWonStage, beq_iff_eq] at h1
    rw [beq_iff_eq] at h2
    exact absurd (h1 ▸ h2) (by decide)
  exact filter_or_length isWonStage (fun s => s == closedLost) stages hdisj

/-- C5: for every sales Deal Stage column with exactly 19 `Closed Won`
rows and 88 `Closed Lost` rows (other stages arbitrary), the overall
conversion rate computed by `calculate_kpis` and by
`generate_conversion_analysis` is `19 / (19 + 88) × 100`, reported as
`17.8` after rounding to one decimal. -/
theorem overall_conversion_rate_value (stages : List (List Char))
    (hW : (stages.filter isWonStage).length = 19)
    (hL : (stages.filter (fun s => s == closedLost)).length = 88) :
    conversion_rate stages = 19 / (19 + 88) * 100
    ∧ pyRound1 (conversion_rate stages) = 178 / 10
    ∧ overall_rate stages = 19 / (19 + 88) * 100
    ∧ pyRound1 (overall_rate stages) = 178 / 10 := by
  have hclosed : (stages.filter isClosedStage).length = 107 := by
    rw [closed_length_split, hW, hL]
  have hwon : ((stages.filter isClosedStage).filter isWonStage).length = 19 := by
    rw [filter_won_of_closed, hW]
  have hcr : conversion_rate stages = 19 / (19 + 88) * 100 := by
    simp only [conversion_rate, hclosed, hwon]
    rw [if_pos (by norm_num)]
    norm_num
  have hor : overall_rate stages = 19 / (19 + 88) * 100 := by
    simp only [overall_rate, hclosed, hwon]
    rw [if_pos (by norm_num)]
    norm_num
  have hround : pyRound1 (19 / (19 + 88) * 100 : ℚ) = 178 / 10 := by
    unfold pyRound1
    rw [pyRoundInt_eq_of_half_lt (19 / (19 + 88) * 100 * 10) 177
      (by rw [Int.floor_eq_iff]; norm_num) (by norm_num)]
    norm_num
  exact ⟨hcr, hcr ▸ hround, hor, hor ▸ hround⟩

/-- A concrete Deal Stage column with 19 won, 88 lost, one open lead. -/
def stagesExample : List (List Char) :=
  List.replicate 19 closedWon ++ List.replicate 88 closedLost ++ ["Lead".data]

/-- Witness for C5 at a concrete stage column. -/
theorem overall_conversion_rate_value_witness :
    conversion_rate stagesExample = 19 / (19 + 88) * 100
    ∧ pyRound1 (conversion_rate stagesExample) = 178 / 10
    ∧ overall_rate stagesExample = 19 / (19 + 88) * 100
    ∧ pyRound1 (overall_rate stagesExample) = 178 / 10 :=
  overall_conversion_rate_value stagesExample (by decide) (by decide)

/-! ## C6: the delegate forecast at 14 delegates and 15% growth -/

/-- C6: with one month of data the growth factor defaults to `1.15`;
at 14 current delegates the forecast is the exact compounding value
`14 × 1.15⁴ = 24.4860875` (whose one-decimal rounding is `24.5`), and
the reported `delegate_forecast` field is its zero-decimal rounding
`24.0` — not the fallback constant `280`. -/
theorem delegate_forecast_exact :
    monthly_growth [5] = 23 / 20
    ∧ rawForecast 14 (23 / 20) = (14 : ℚ) * (23 / 20) ^ 4
    ∧ rawForecast 14 (23 / 20) = 1958887 / 80000
    ∧ pyRound1 (rawForecast 14 (23 / 20)) = 49 / 2
    ∧ reportedForecast 14 (23 / 20) = 24
    ∧ reportedForecast 14 (23 / 20) ≠ fallbackDelegateForecast := by
  have hraw : rawForecast 14 (23 / 20) = 1958887 / 80000 := by
    unfold rawForecast months_remaining
    norm_num
  have hrep : reportedForecast 14 (23 / 20) = 24 := by
    unfold reportedForecast pyRound0
    rw [hraw, pyRoundInt_eq_of_lt_half (1958887 / 80000) 24
      (by rw [Int.floor_eq_iff]; norm_num) (by norm_num)]
    norm_num
  refine ⟨?_, ?_, hraw, ?_, hrep, ?_⟩
  · simp only [monthly_growth, List.length_singleton]
    norm_num
  · unfold rawForecast months_remaining
    norm_num
  · unfold pyRound1
    rw [hraw, pyRoundInt_eq_of_half_lt (1958887 / 80000 * 10) 244
      (by rw [Int.floor_eq_iff]; norm_num) (by norm_num)]
    norm_num
  · rw [hrep]
    unfold fallbackDelegateForecast
    norm_num

/-! ## C7: the growth rate used by the forecast lies in (0, 0.3] -/

/-- C7: for every monthly lead series (monthly group sizes are
positive), the growth factor is `1.15` by default when the data has at
most one month; otherwise it is `1 + 0.15` when the averaged percentage
change is non-positive and `1 + min(average, 0.3)` when it is positive;
in all cases the growth rate actually used lies in `(0, 0.3]`. -/
theorem monthly_growth_rate_range (counts : List ℕ)
    (_hpos : ∀ c ∈ counts, 0 < c) :
    (counts.length ≤ 1 → monthly_growth counts = 1 + 3 / 20)
    ∧ (1 < counts.length →
        (listMean (pct_changes (counts.map (fun n => (n : ℚ)))) ≤ 0 →
            monthly_growth counts = 1 + 3 / 20)
        ∧ (0 < listMean (pct_changes (counts.map (fun n => (n : ℚ)))) →
            monthly_growth counts
              = 1 + min (listMean (pct_changes (counts.map (fun n => (n : ℚ)))))
                  (3 / 10)))
    ∧ 0 < monthly_growth counts - 1
    ∧ monthly_growth counts - 1 ≤ 3 / 10 := by
  by_cases hlen : 1 < counts.length
  · have hnotle : ¬ counts.length ≤ 1 := not_le.mpr hlen
    refine ⟨fun h => absurd h hnotle, fun _ => ⟨?_, ?_⟩, ?_, ?_⟩
    · intro hgle
      unfold monthly_growth
      rw [if_pos hlen, if_pos hgle]
    · intro hgpos
      unfold monthly_growth
      rw [if_pos hlen, if_neg (not_le.mpr hgpos)]
    · unfold monthly_growth
      rw [if_pos hlen]
      by_cases hgle : listMean (pct_changes (counts.map (fun n => (n : ℚ)))) ≤ 0
      · rw [if_pos hgle]; norm_num
      · rw [if_neg hgle]
        have hmin : 0 < min (listMean (pct_changes (counts.map (fun n => (n : ℚ)))))
            (3 / 10 : ℚ) :=
          lt_min (not_le.mp hgle) (by norm_num)
        linarith
    · unfold monthly_growth
      rw [if_pos hlen]
      by_cases hgle : listMean (pct_changes (counts.map (fun n => (n : ℚ)))) ≤ 0
      · rw [if_pos hgle]; norm_num
      · rw [if_neg hgle]
        have hmin : min (listMean (pct_changes (counts.map (fun n => (n : ℚ)))))
            (3 / 10 : ℚ) ≤ 3 / 10 := min_le_right _ _
        linarith
  · have h1 : monthly_growth counts = 23 / 20 := by
      unfold monthly_growth
      rw [if_neg hlen]
    refine ⟨fun _ => by rw [h1]; norm_num, fun h => absurd h hlen, ?_, ?_⟩
    · rw [h1]; norm_num
    · rw [h1]; norm_num

/-- Witness for C7 at the two-month series `[2, 3]` (positive counts):
the used growth rate lies in `(0, 0.3]`. -/
theorem monthly_growth_rate_range_witness :
    (∀ c ∈ [2, 3], 0 < c)
    ∧ 0 < monthly_growth [2, 3] - 1
    ∧ monthly_growth [2, 3] - 1 ≤ 3 / 10 :=
  ⟨by decide, (monthly_growth_rate_range [2, 3] (by decide)).2.2⟩

/-! ## C8: a cleaning failure aborts the remaining sheets -/

/-- C8 counterexample: on the workbook missing only the Website Traffic
sheet (every method body otherwise fine), the website step's KeyError
escapes its cleaning method, the pipeline returns `False`, and the
Social Media sheet — present, and whose own cleaning step succeeds in
isolation — is never cleaned. -/
theorem pipeline_abort_counterexample :
    run_full_pipeline missingWebsiteSheets (Except.ok ()) (Except.ok ())
        (Except.ok ()) (Except.ok ()) (Except.ok ())
      = (false, missingWebsiteSheets)
    ∧ clean_step sheetSocial cleanSocial (Except.ok ()) missingWebsiteSheets
        = Except.ok (missingWebsiteSheets ++ [cleanSocial])
    ∧ missingWebsiteSheets.contains cleanSocial = false := by
  refine ⟨by decide, ?_, by decide⟩
  show clean_step sheetSocial cleanSocial (Except.ok ()) missingWebsiteSheets
      = Except.ok (missingWebsiteSheets ++ [cleanSocial])
  unfold clean_step
  rw [if_pos (by decide)]

/-- When a prefix of cleaning steps succeeds and the next step raises
(for any reason: its source sheet is absent, or its method body fails),
the chain stops: the remaining steps are skipped and the result is
`False` with the data exactly as it was before the failing step. -/
theorem run_clean_steps_abort
    (steps₂ : List (List Char × List Char × Except (List Char) Unit))
    (src tgt : List Char) (body : Except (List Char) Unit) (e : List Char) :
    ∀ (steps₁ : List (List Char × List Char × Except (List Char) Unit))
      (sheets d : List (List Char)),
      run_clean_steps steps₁ sheets = (true, d) →
      clean_step src tgt body d = Except.error e →
      run_clean_steps (steps₁ ++ (src, tgt, body) :: steps₂) sheets
        = (false, d) := by
  intro steps₁
  induction steps₁ with
  | nil =>
    intro sheets d h1 h2
    have hd : sheets = d := by simpa [run_clean_steps] using h1
    subst hd
    simp only [List.nil_append, run_clean_steps, h2]
  | cons p rest ih =>
    intro sheets d h1 h2
    obtain ⟨s, t, b⟩ := p
    rw [List.cons_append]
    simp only [run_clean_steps] at h1 ⊢
    cases hstep : clean_step s t b sheets with
    | ok d2 =>
      simp only [hstep] at h1 ⊢
      exact ih d2 d h1 h2
    | error err =>
      simp only [hstep] at h1
      exact absurd h1 (by simp)

/-- C8 (amended): an exception in a sheet's cleaning step — whether the
KeyError of a missing source sheet or any error raised later in the
method body — propagates out of that step (the `clean_*` methods have
no handler); the single `try/except` of `run_full_pipeline` catches it
and returns `False`, and the remaining cleaning steps are skipped: the
data is left exactly as it was before the failing step, so no later
sheet is cleaned.  No exception escapes `run_full_pipeline` itself. -/
theorem pipeline_failure_aborts
    (steps₁ steps₂ : List (List Char × List Char × Except (List Char) Unit))
    (src tgt : List Char) (body : Except (List Char) Unit)
    (sheets d : List (List Char)) (e : List Char)
    (bw bs be bsa ba : Except (List Char) Unit) :
    (run_clean_steps steps₁ sheets = (true, d) →
     clean_step src tgt body d = Except.error e →
     run_clean_steps (steps₁ ++ (src, tgt, body) :: steps₂) sheets
       = (false, d))
    ∧ (clean_step sheetWebsite cleanWebsite bw sheets = Except.error e →
       run_full_pipeline sheets bw bs be bsa ba = (false, sheets))
    ∧ (clean_step sheetWebsite cleanWebsite bw sheets
          = Except.ok (sheets ++ [cleanWebsite]) →
       clean_step sheetSocial cleanSocial bs (sheets ++ [cleanWebsite])
          = Except.error e →
       run_full_pipeline sheets bw bs be bsa ba
         = (false, sheets ++ [cleanWebsite])) := by
  refine ⟨run_clean_steps_abort steps₂ src tgt body e steps₁ sheets d, ?_, ?_⟩
  · intro h
    show run_clean_steps (cleaning_steps bw bs be bsa ba) sheets = (false, sheets)
    have h0 : run_clean_steps [] sheets = (true, sheets) := rfl
    have := run_clean_steps_abort
      [(sheetSocial, cleanSocial, bs), (sheetEmail, cleanEmail, be),
       (sheetSales, cleanSales, bsa), (sheetAds, cleanAds, ba)]
      sheetWebsite cleanWebsite bw e [] sheets sheets h0 h
    simpa [cleaning_steps] using this
  · intro h1 h2
    show run_clean_steps (cleaning_steps bw bs be bsa ba) sheets
        = (false, sheets ++ [cleanWebsite])
    have h0 : run_clean_steps [(sheetWebsite, cleanWebsite, bw)] sheets
        = (true, sheets ++ [cleanWebsite]) := by
      simp only [run_clean_steps, h1]
    have := run_clean_steps_abort
      [(sheetEmail, cleanEmail, be), (sheetSales, cleanSales, bsa),
       (sheetAds, cleanAds, ba)]
      sheetSocial cleanSocial bs e [(sheetWebsite, cleanWebsite, bw)]
      sheets (sheets ++ [cleanWebsite]) h0 h2
    simpa [cleaning_steps] using this

/-- Witness for C8 (amended): on the complete workbook, an in-body
failure of the second (Social Media) cleaning step — its source sheet
being present — still aborts the pipeline with only Website Traffic
cleaned; and on the missing-website workbook the KeyError of the first
step aborts it with nothing cleaned. -/
theorem pipeline_failure_aborts_witness :
    run_clean_steps
      ([(sheetWebsite, cleanWebsite, Except.ok ())]
        ++ (sheetSocial, cleanSocial, Except.error ("ValueError".data))
          :: [(sheetEmail, cleanEmail, Except.ok ()),
              (sheetSales, cleanSales, Except.ok ()),
              (sheetAds, cleanAds, Except.ok ())])
      allSheets = (false, allSheets ++ [cleanWebsite])
    ∧ run_full_pipeline missingWebsiteSheets (Except.ok ()) (Except.ok ())
        (Except.ok ()) (Except.ok ()) (Except.ok ())
        = (false, missingWebsiteSheets) :=
  ⟨(pipeline_failure_aborts
      [(sheetWebsite, cleanWebsite, Except.ok ())]
      [(sheetEmail, cleanEmail, Except.ok ()),
       (sheetSales, cleanSales, Except.ok ()),
       (sheetAds, cleanAds, Except.ok ())]
      sheetSocial cleanSocial (Except.error ("ValueError".data))
      allSheets (allSheets ++ [cleanWebsite]) ("ValueError".data)
      (Except.ok ()) (Except.ok ()) (Except.ok ()) (Except.ok ())
      (Except.ok ())).1 (by decide) (by rfl),
   (pipeline_failure_aborts [] [] sheetWebsite cleanWebsite (Except.ok ())
      missingWebsiteSheets missingWebsiteSheets sheetWebsite
      (Except.ok ()) (Except.ok ()) (Except.ok ()) (Except.ok ())
      (Except.ok ())).2.1 (by rfl)⟩

/-! ## C9: analysis steps fall back to hardcoded values on failure -/

/-- C9: each analysis step's `try/except` wrapper is total: a failing
body is replaced by that step's hardcoded fallback (the empty dict for
the per-dataset analyses, the populated fallback dicts for ROI,
conversion, forecast, hidden insights and KPIs), a successful body
passes through unchanged, and each fallback dict carries the keys its
downstream consumers read. -/
theorem analysis_step_fallbacks :
    (∀ e, analyze_website_run (Except.error e) = JVal.obj [])
    ∧ (∀ e, generate_roi_run (Except.error e) = roiFallback)
    ∧ (∀ e, generate_conversion_run (Except.error e) = conversionFallback)
    ∧ (∀ e, generate_forecast_run (Except.error e) = forecastFallback)
    ∧ (∀ e, hidden_insights_run (Except.error e) = hiddenFallback)
    ∧ (∀ e, calculate_kpis_run (Except.error e) = kpisFallback)
    ∧ (∀ (fb : JVal) (v : JVal), run_step fb (Except.ok v) = v)
    ∧ hasKey roiFallback ("best_channel".data) = true
    ∧ hasKey roiFallback ("worst_channel".data) = true
    ∧ hasKey roiFallback ("channel_data".data) = true
    ∧ hasKey conversionFallback ("overall_rate".data) = true
    ∧ hasKey conversionFallback ("by_source".data) = true
    ∧ hasKey forecastFallback ("delegate_forecast".data) = true
    ∧ hasKey forecastFallback ("delegate_gap".data) = true
    ∧ hasKey hiddenFallback ("stuck_deals_count".data) = true
    ∧ hasKey kpisFallback ("overall_conversion_rate".data) = true :=
  ⟨fun _ => rfl, fun _ => rfl, fun _ => rfl, fun _ => rfl, fun _ => rfl,
   fun _ => rfl, fun _ _ => rfl, rfl, rfl, rfl, rfl, rfl, rfl, rfl, rfl, rfl⟩

/-! ## C10: totality of `clean_currency` -/

theorem pyFloat_currency_example :
    pyFloat (cleanCurrencyStr ("€1,500.50".data)) = some (3001 / 2) := by
  have h1 : cleanCurrencyStr ("€1,500.50".data) = "1500.50".data := by decide
  rw [h1]
  have h2 : pyFloat ("1500.50".data) = (pyFloatCore ("1500.50".data)).map partsVal := rfl
  rw [h2, show pyFloatCore ("1500.50".data) = some (1500, 50, 2) from by decide]
  show some (partsVal (1500, 50, 2)) = some (3001 / 2)
  norm_num [partsVal]

theorem pyFloat_abc_example :
    pyFloat (cleanCurrencyStr ("abc".data)) = none := by
  have h1 : cleanCurrencyStr ("abc".data) = "abc".data := by decide
  rw [h1]
  have h2 : pyFloat ("abc".data) = (pyFloatCore ("abc".data)).map partsVal := rfl
  rw [h2, show pyFloatCore ("abc".data) = none from by decide]
  rfl

/-- C10: `clean_currency` is total on deal-value cells: missing input
gives `0.0` (not a missing marker), a numeric cell passes through as a
float, a string cell is cleaned of `€`, commas and edge spaces and then
parsed — returning the parsed float, or `0.0` when parsing fails. -/
theorem clean_currency_total (v : ℚ) (s : List Char) :
    clean_currency PyVal.na = 0
    ∧ clean_currency (PyVal.num v) = v
    ∧ (pyFloat (cleanCurrencyStr s) = none → clean_currency (PyVal.str s) = 0)
    ∧ (pyFloat (cleanCurrencyStr s) = some v → clean_currency (PyVal.str s) = v) := by
  refine ⟨rfl, rfl, ?_, ?_⟩
  · intro h
    simp only [clean_currency, h]
  · intro h
    simp only [clean_currency, h]

/-- Witness for C10: a euro-formatted string parses to its float value,
and an unparseable string maps to `0.0`. -/
theorem clean_currency_total_witness :
    clean_currency (PyVal.str ("€1,500.50".data)) = 3001 / 2
    ∧ clean_currency (PyVal.str ("abc".data)) = 0 :=
  ⟨(clean_currency_total (3001 / 2) ("€1,500.50".data)).2.2.2 pyFloat_currency_example,
   (clean_currency_total 0 ("abc".data)).2.2.1 pyFloat_abc_example⟩

end POT
